import Mathlib

/-!
Shallow embedding of the core of `bastion-executor`'s two thread pools
(`src/bastion-executor/src/pool.rs`, the async pool, and
`src/bastion-executor/src/blocking.rs`, the blocking pool), together with
theorems checking the specification's claims about them.

Both files share the same shape: a lazily initialised global `Pool` holding
the sender and receiver of one unbounded crossbeam channel of `LightProc`
tasks, a `schedule` function that enqueues a task (nonblocking send with a
blocking retry) and bumps the dynamic pool manager's frequency counter, a
`spawn_blocking` entry point, a `low_watermark` configuration reader, and a
`DynamicRunner` implementation (`AsyncRunner` / `BlockingRunner`) providing
the three worker-loop bodies `run_static`, `run_dynamic`, `run_standalone`.
-/

set_option autoImplicit false

namespace Bastion

/-- A lightweight process (a task): the external `lightproc` crate's
`LightProc`. It is opaque to the pool; we identify it by the future and the
supervision stack it packages. Its only operation is `run()`, which consumes
it. -/
structure LightProc where
  future : Nat
  stack : Nat
deriving DecidableEq, Repr

/-- Handle returned by `LightProc::recoverable`, referring to the same
future and stack as the task it was created with. -/
structure RecoverableHandle where
  future : Nat
  stack : Nat
deriving DecidableEq, Repr

/-- Modelled from the spec: the task abstraction is external ("a pre-built
opaque `Task` handle that supports a single `run()` method"); the `lightproc`
crate is part of the repository but not under `src/`.
`LightProc::recoverable(future, schedule_fn, stack)` packages the future and
the stack into a recoverable task together with its handle; calling
`task.schedule()` hands the task to the `schedule_fn` it was built with.
The choice of `schedule_fn` is made at each call site in `src/` and is
modelled there; here we build the task/handle pair. -/
def LightProc.recoverable (future stack : Nat) : LightProc × RecoverableHandle :=
  (⟨future, stack⟩, ⟨future, stack⟩)

/-- One crossbeam unbounded channel (`crossbeam_channel::unbounded()`), the
task channel of one pool. `queue` is its FIFO content. `connected` records
whether the receiving side is still alive: crossbeam's `try_send` and `send`
on an unbounded channel fail exactly when the channel is disconnected.
`transientFail` abstracts the specification's "transient internal errors"
under which the nonblocking attempt may fail even though the channel is
alive (crossbeam itself has no such failure; the flag lets the retry logic
be exercised without committing to a cause). -/
structure Chan where
  queue : List LightProc
  connected : Bool
  transientFail : Bool
deriving DecidableEq, Repr

/-- Nonblocking send (`Sender::try_send`): fails (returning the rejected
payload, as `TrySendError::into_inner` recovers it) when the channel is
disconnected or the abstract transient condition holds; otherwise appends
the task to the queue. -/
def Chan.trySend (c : Chan) (t : LightProc) : Except LightProc Chan :=
  if c.connected && !c.transientFail then
    Except.ok { c with queue := c.queue ++ [t] }
  else
    Except.error t

/-- Blocking send (`Sender::send`): on an unbounded channel it never waits
and fails only when the channel is disconnected. -/
def Chan.send (c : Chan) (t : LightProc) : Except LightProc Chan :=
  if c.connected then
    Except.ok { c with queue := c.queue ++ [t] }
  else
    Except.error t

/-- The state one pool's globals hold that `schedule` touches: the channel
of the `POOL` static and the `DYNAMIC_POOL_MANAGER`'s submission-frequency
counter (`increment_frequency` adds one to it). -/
structure PoolState where
  chan : Chan
  frequency : Nat
deriving DecidableEq, Repr

/-- The error branch of `schedule`: `POOL.sender.send(err.into_inner()).unwrap()`.
A blocking send of the recovered payload on the same channel; the `.unwrap()`
panics (modelled as `none`) if that send fails. -/
def PoolState.blockingSendPath (st : PoolState) (t : LightProc) : Option PoolState :=
  match st.chan.send t with
  | Except.ok c => some { chan := c, frequency := st.frequency + 1 }
  | Except.error _ => none

/-- The body shared (textually identical) by `pool.rs`'s `schedule`
(lines 101-109, acting on the async pool's `POOL` and manager) and
`blocking.rs`'s `schedule` (lines 148-157, acting on the blocking pool's):

```
if let Err(err) = POOL.sender.try_send(t) {
    POOL.sender.send(err.into_inner()).unwrap();
}
DYNAMIC_POOL_MANAGER.get().unwrap().increment_frequency();
```

`none` models a panic (the `.unwrap()` of the blocking retry failing);
otherwise the task is enqueued and the frequency counter is bumped. -/
def PoolState.schedule (st : PoolState) (t : LightProc) : Option PoolState :=
  match st.chan.trySend t with
  | Except.ok c => some { chan := c, frequency := st.frequency + 1 }
  | Except.error err => st.blockingSendPath err

/-- The process-wide state relevant to the two pools: the async pool's
globals (`pool.rs`'s `POOL` / `DYNAMIC_POOL_MANAGER`) and the blocking
pool's (`blocking.rs`'s). They share no channel or counter. -/
structure World where
  asyncPool : PoolState
  blockingPool : PoolState
deriving DecidableEq, Repr

namespace Pool

/-- `pool.rs`'s `schedule`: the shared body acting on the async pool's
globals. -/
def schedule (w : World) (t : LightProc) : Option World :=
  (w.asyncPool.schedule t).map fun p => { w with asyncPool := p }

/-- `pool.rs`'s `spawn_blocking` (lines 62-70):

```
let (task, handle) = LightProc::recoverable(future, schedule, stack);
task.schedule();
handle
```

The `schedule` it passes is the one in scope in `pool.rs`, i.e. the async
pool's `schedule`; `task.schedule()` therefore hands the task to the async
pool's channel. -/
def spawn_blocking (w : World) (future stack : Nat) : Option (World × RecoverableHandle) :=
  let (task, handle) := LightProc.recoverable future stack
  (Pool.schedule w task).map fun w' => (w', handle)

end Pool

namespace Blocking

/-- `blocking.rs`'s `schedule`: the shared body acting on the blocking
pool's globals. -/
def schedule (w : World) (t : LightProc) : Option World :=
  (w.blockingPool.schedule t).map fun p => { w with blockingPool := p }

/-- `blocking.rs`'s `spawn_blocking` (lines 32-40): same shape as
`pool.rs`'s, but the `schedule` in scope is `blocking.rs`'s, so the task
goes to the blocking pool's channel. -/
def spawn_blocking (w : World) (future stack : Nat) : Option (World × RecoverableHandle) :=
  let (task, handle) := LightProc.recoverable future stack
  (Blocking.schedule w task).map fun w' => (w', handle)

end Blocking

/-- The channel-receive primitive a worker loop's inner `while let` uses.
The three forms appearing in the source are crossbeam's nonblocking
`try_recv()`, `recv_timeout(ms)`, and the blocking iterator
`for task in &receiver` (which yields messages until the channel is
disconnected). -/
inductive RecvOp where
  | tryRecv
  | recvTimeout (ms : Nat)
  | iterRecv
deriving DecidableEq, Repr

/-- Modelled from crossbeam-channel semantics: the longest one invocation of
the receive primitive blocks on an empty, still-connected channel, in
milliseconds; `none` means unbounded (it waits until a message arrives).
`try_recv` returns immediately, `recv_timeout ms` waits at most `ms`, and
the receiver iterator blocks until a message or disconnection. -/
def RecvOp.blocksAtMost : RecvOp → Option Nat
  | RecvOp.tryRecv => some 0
  | RecvOp.recvTimeout ms => some ms
  | RecvOp.iterRecv => none

/-- An observable action of a worker-loop body. -/
inductive Ev where
  | run (t : LightProc)
  | parkTimeout (ms : Nat)
  | callParker
deriving DecidableEq, Repr

/-- The inner drain of a worker loop — `while let Ok(task) = recv { task.run() }`
(or `for task in &receiver { task.run() }`) — on the current channel content,
with no concurrent senders: every queued task is received and run in FIFO
order, after which the receive finds the channel empty. The `Bool` says
whether control then falls through to the code after the loop: `try_recv`
and `recv_timeout` return an error on an empty channel, ending the loop;
the receiver iterator blocks awaiting the next message (the channel is never
disconnected), so the code after it is not reached. -/
def innerDrain (op : RecvOp) : List LightProc → List Ev × Bool
  | [] =>
    match op with
    | RecvOp.iterRecv => ([], false)
    | _ => ([], true)
  | t :: rest =>
    let (evs, falls) := innerDrain op rest
    (Ev.run t :: evs, falls)

namespace AsyncRunner

/-- The receive primitive of `pool.rs`'s `AsyncRunner::_static_loop`
(line 190): `for task in &POOL.receiver`. -/
def staticRecvOp : RecvOp := RecvOp.iterRecv

/-- The receive primitive of `pool.rs`'s `AsyncRunner::_dynamic_loop`
(line 201): `POOL.receiver.try_recv()`. -/
def dynamicRecvOp : RecvOp := RecvOp.tryRecv

/-- The receive primitive of `pool.rs`'s `AsyncRunner::_standalone`
(line 213): `POOL.receiver.try_recv()`. -/
def standaloneRecvOp : RecvOp := RecvOp.tryRecv

/-- One iteration of `pool.rs`'s `AsyncRunner::_static_loop` outer `loop`:
drain via the receiver iterator, then `thread::park_timeout(park_timeout)`.
The `Bool` says whether the iteration completed (reached the park and can
loop again); with the iterator on a never-disconnected channel it does not. -/
def static_loop_iter (park_timeout : Nat) (q : List LightProc) : List Ev × Bool :=
  match innerDrain staticRecvOp q with
  | (evs, true) => (evs ++ [Ev.parkTimeout park_timeout], true)
  | (evs, false) => (evs, false)

/-- One iteration of `pool.rs`'s `AsyncRunner::_dynamic_loop` outer `loop`:
drain via `try_recv`, then call the externally supplied `parker()`. -/
def dynamic_loop_iter (q : List LightProc) : List Ev × Bool :=
  match innerDrain dynamicRecvOp q with
  | (evs, true) => (evs ++ [Ev.callParker], true)
  | (evs, false) => (evs, false)

/-- `pool.rs`'s `AsyncRunner::_standalone`: one drain pass via `try_recv`,
then return. -/
def standalone (q : List LightProc) : List Ev :=
  (innerDrain standaloneRecvOp q).1

/-- `pool.rs`'s `AsyncRunner::run_standalone` (lines 170-184). With the
`runtime-tokio` feature it drives `_standalone` inside a tokio runtime and
then, after the `cfg` blocks, calls `self._standalone()` once more (line
183); without the feature the `cfg(not(...))` block calls `_standalone` and
line 183 calls it again. Either way two drain passes happen. The result
lists the passes in order, each with its events; `q1` and `q2` are the
channel contents seen by the first and the second pass. -/
def run_standalone (runtimeTokio : Bool) (q1 q2 : List LightProc) : List (List Ev) :=
  (if runtimeTokio then [standalone q1] else [standalone q1]) ++ [standalone q2]

/-- `pool.rs`'s `AsyncRunner::run_dynamic` / `_dynamic_loop` (return type
`!`): `loop { while let Ok(task) = try_recv { task.run() } parker(); }`,
run for `fuel` outer iterations. The parker is a `&dyn Fn()` returning unit;
the loop discards its result and continues, so `parkerExpired n` — whether
the external parker would report idle-deadline expiry at its `n`-th call —
is information the loop cannot observe. `arrivals n` is the channel content
at iteration `i + n`. The second component is `some ()` if the loop body
returned within the fuel, `none` if it is still looping. -/
def run_dynamic_loop (parkerExpired : Nat → Bool) (arrivals : Nat → List LightProc) :
    Nat → Nat → List Ev × Option Unit
  | _, 0 => ([], none)
  | i, fuel + 1 =>
    let (evs, _) := dynamic_loop_iter (arrivals i)
    let (rest, r) := run_dynamic_loop parkerExpired arrivals (i + 1) fuel
    (evs ++ rest, r)

end AsyncRunner

namespace BlockingRunner

/-- `blocking.rs` line 27: `const THREAD_RECV_TIMEOUT: Duration =
Duration::from_millis(100)`. -/
def THREAD_RECV_TIMEOUT : Nat := 100

/-- The receive primitive of `blocking.rs`'s `BlockingRunner::_static_loop`
(line 92): `POOL.receiver.recv_timeout(THREAD_RECV_TIMEOUT)`. -/
def staticRecvOp : RecvOp := RecvOp.recvTimeout THREAD_RECV_TIMEOUT

/-- The receive primitive of `blocking.rs`'s `BlockingRunner::_dynamic_loop`
(line 103): `POOL.receiver.recv_timeout(THREAD_RECV_TIMEOUT)`. -/
def dynamicRecvOp : RecvOp := RecvOp.recvTimeout THREAD_RECV_TIMEOUT

/-- The receive primitive of `blocking.rs`'s `BlockingRunner::_standalone`
(line 115): `POOL.receiver.recv_timeout(THREAD_RECV_TIMEOUT)`. -/
def standaloneRecvOp : RecvOp := RecvOp.recvTimeout THREAD_RECV_TIMEOUT

/-- One iteration of `blocking.rs`'s `BlockingRunner::_static_loop` outer
`loop`: drain via `recv_timeout(100 ms)`, then
`thread::park_timeout(park_timeout)`. -/
def static_loop_iter (park_timeout : Nat) (q : List LightProc) : List Ev × Bool :=
  match innerDrain staticRecvOp q with
  | (evs, true) => (evs ++ [Ev.parkTimeout park_timeout], true)
  | (evs, false) => (evs, false)

/-- One iteration of `blocking.rs`'s `BlockingRunner::_dynamic_loop` outer
`loop`: drain via `recv_timeout(100 ms)`, then call the supplied `parker()`. -/
def dynamic_loop_iter (q : List LightProc) : List Ev × Bool :=
  match innerDrain dynamicRecvOp q with
  | (evs, true) => (evs ++ [Ev.callParker], true)
  | (evs, false) => (evs, false)

/-- `blocking.rs`'s `BlockingRunner::_standalone`: one drain pass via
`recv_timeout(100 ms)`, then return. -/
def standalone (q : List LightProc) : List Ev :=
  (innerDrain standaloneRecvOp q).1

/-- `blocking.rs`'s `BlockingRunner::run_standalone` (lines 73-86): with the
`runtime-tokio` feature it drives `_standalone` inside a tokio runtime,
without it it calls `_standalone` directly — one drain pass either way. -/
def run_standalone (runtimeTokio : Bool) (q1 : List LightProc) : List (List Ev) :=
  if runtimeTokio then [standalone q1] else [standalone q1]

/-- `blocking.rs`'s `BlockingRunner::run_dynamic` / `_dynamic_loop` (return
type `!`), run for `fuel` outer iterations; same shape as the async one but
draining with `recv_timeout(100 ms)`. The unit-returning parker gives the
loop no way to observe `parkerExpired`. -/
def run_dynamic_loop (parkerExpired : Nat → Bool) (arrivals : Nat → List LightProc) :
    Nat → Nat → List Ev × Option Unit
  | _, 0 => ([], none)
  | i, fuel + 1 =>
    let (evs, _) := dynamic_loop_iter (arrivals i)
    let (rest, r) := run_dynamic_loop parkerExpired arrivals (i + 1) fuel
    (evs ++ rest, r)

end BlockingRunner

/-- The value of an environment variable as `env::var_os` returns it: an
`OsString`, which either is valid UTF-8 or is not. -/
inductive OsStrVal where
  | utf8 (s : String)
  | invalid
deriving DecidableEq, Repr

/-- `OsStr::to_str`: `Some` of the string when the value is valid UTF-8,
`None` otherwise. -/
def OsStrVal.to_str : OsStrVal → Option String
  | OsStrVal.utf8 s => some s
  | OsStrVal.invalid => none

/-- Modelled from Rust core's `u64::from_str` (external to the repository):
an optional leading `+` followed by one or more ASCII digits and nothing
else; the value must fit in `u64`, otherwise the parse errors. We work on
the string's character list. -/
def parseU64 (s : String) : Option Nat :=
  let digits := match s.data with
    | '+' :: rest => rest
    | _ => s.data
  if digits.isEmpty then none
  else if digits.all Char.isDigit then
    let n := digits.foldl (fun a c => a * 10 + (c.toNat - 48)) 0
    if n < 2 ^ 64 then some n else none
  else none

/-- `DEFAULT_LOW_WATERMARK: u64 = 2` (`pool.rs` line 130, `blocking.rs`
line 25). -/
def DEFAULT_LOW_WATERMARK : Nat := 2

/-- Outcome of evaluating the `LOW_WATERMARK` lazy static's initialiser:
a value, or a panic at one of its two `unwrap()` sites. -/
inductive LWOutcome where
  | value (n : Nat)
  | panicNonUtf8
  | panicParse
deriving DecidableEq, Repr

/-- Whether the outcome is a panic (at either site). -/
def LWOutcome.isPanic : LWOutcome → Bool
  | LWOutcome.value _ => false
  | _ => true

/-- The initialiser of the `LOW_WATERMARK` lazy static, textually identical
in `pool.rs`'s and `blocking.rs`'s `low_watermark` (pool.rs lines 116-126,
blocking.rs lines 164-174):

```
env::var_os("BASTION_BLOCKING_THREADS")
    .map(|x| x.to_str().unwrap().parse::<u64>().unwrap())
    .unwrap_or(DEFAULT_LOW_WATERMARK)
```

`env` is the variable's value at first evaluation (`none`: unset). A set
value goes through `to_str().unwrap()` first — panicking on non-UTF-8
before any parsing — and then `parse::<u64>().unwrap()`. -/
def low_watermark_init (env : Option OsStrVal) : LWOutcome :=
  match env with
  | none => LWOutcome.value DEFAULT_LOW_WATERMARK
  | some x =>
    match x.to_str with
    | none => LWOutcome.panicNonUtf8
    | some s =>
      match parseU64 s with
      | none => LWOutcome.panicParse
      | some n => LWOutcome.value n

/-- One call to `low_watermark` under `lazy_static` semantics: the static is
computed at first dereference and cached; later dereferences return the
cached value without re-reading the environment. `cache` is the stored value
(`none` before first evaluation); the call returns the outcome and the new
cache. -/
def low_watermark_call (cache : Option Nat) (env : Option OsStrVal) :
    LWOutcome × Option Nat :=
  match cache with
  | some v => (LWOutcome.value v, some v)
  | none =>
    match low_watermark_init env with
    | LWOutcome.value n => (LWOutcome.value n, some n)
    | r => (r, none)

/-- The receiver iterator runs every queued task in FIFO order and then
blocks: control never falls through. -/
theorem innerDrain_iterRecv (q : List LightProc) :
    innerDrain RecvOp.iterRecv q = (q.map Ev.run, false) := by
  induction q with
  | nil => rfl
  | cons t rest ih => simp [innerDrain, ih]

/-- Nonblocking `try_recv` runs every queued task in FIFO order and then
returns an error on the empty channel, ending the inner loop. -/
theorem innerDrain_tryRecv (q : List LightProc) :
    innerDrain RecvOp.tryRecv q = (q.map Ev.run, true) := by
  induction q with
  | nil => rfl
  | cons t rest ih => simp [innerDrain, ih]

/-- A `recv_timeout` drain runs every queued task in FIFO order and then
times out on the empty channel, ending the inner loop. -/
theorem innerDrain_recvTimeout (ms : Nat) (q : List LightProc) :
    innerDrain (RecvOp.recvTimeout ms) q = (q.map Ev.run, true) := by
  induction q with
  | nil => rfl
  | cons t rest ih => simp [innerDrain, ih]

/-- Claim C2 (code bug, evaluated at the failing input): from a fresh world
(both pools' channels empty, connected, no transient failure),
`pool.rs`'s `spawn_blocking` with future 7 and stack 3 packages them into a
recoverable task and returns its handle, but enqueues the task on the
ASYNC pool's channel (and bumps the async manager's counter), leaving the
blocking pool untouched — contradicting its own doc comment ("a thread pool
specifically dedicated to blocking tasks") and the claim. `blocking.rs`'s
`spawn_blocking` enqueues on the blocking pool's channel as claimed. -/
theorem pool_spawn_blocking_misroutes_to_async_pool :
    Pool.spawn_blocking ⟨⟨⟨[], true, false⟩, 0⟩, ⟨⟨[], true, false⟩, 0⟩⟩ 7 3 =
      some (⟨⟨⟨[⟨7, 3⟩], true, false⟩, 1⟩, ⟨⟨[], true, false⟩, 0⟩⟩, ⟨7, 3⟩)
    ∧ Blocking.spawn_blocking ⟨⟨⟨[], true, false⟩, 0⟩, ⟨⟨[], true, false⟩, 0⟩⟩ 7 3 =
      some (⟨⟨⟨[], true, false⟩, 0⟩, ⟨⟨[⟨7, 3⟩], true, false⟩, 1⟩⟩, ⟨7, 3⟩) := by
  decide

/-- Claim C3 (code bug, evaluated at the failing input): one call to
`AsyncRunner::run_standalone` performs TWO drain passes over the async
pool's channel — `_standalone` is called once inside the `cfg` block and
once more after it — under either setting of the `runtime-tokio` feature;
a task arriving between the passes is run by the second pass.
`BlockingRunner::run_standalone` performs exactly one pass. -/
theorem async_run_standalone_two_drain_passes :
    (AsyncRunner.run_standalone true [] []).length = 2
    ∧ (AsyncRunner.run_standalone false [] []).length = 2
    ∧ AsyncRunner.run_standalone false [] [⟨1, 1⟩] = [[], [Ev.run ⟨1, 1⟩]]
    ∧ (BlockingRunner.run_standalone true []).length = 1
    ∧ (BlockingRunner.run_standalone false []).length = 1 := by
  decide

/-- Claim C4, counterexample: the async pool's static worker does not
receive with a bounded 100 ms timeout. Its inner receive is the blocking
receiver iterator (`for task in &POOL.receiver`), whose blocking time on an
empty channel is unbounded, and on an empty channel its loop iteration
never reaches the park. -/
theorem async_static_recv_unbounded_cex :
    AsyncRunner.staticRecvOp = RecvOp.iterRecv
    ∧ AsyncRunner.staticRecvOp ≠ RecvOp.recvTimeout 100
    ∧ RecvOp.blocksAtMost AsyncRunner.staticRecvOp = none
    ∧ AsyncRunner.static_loop_iter 100 [] = ([], false) := by
  decide

/-- Claim C4 as amended: in the blocking pool, a static worker's loop
receives with a bounded 100 ms timeout, runs each received task in order,
and parks with the configured park timeout once a receive times out empty;
in the async pool, a static worker iterates the channel receiver, which
blocks without bound on an empty channel, so it runs each received task but
never reaches the park. -/
theorem static_worker_recv_amended (park_timeout : Nat) (q : List LightProc) :
    BlockingRunner.staticRecvOp = RecvOp.recvTimeout 100
    ∧ RecvOp.blocksAtMost BlockingRunner.staticRecvOp = some 100
    ∧ BlockingRunner.static_loop_iter park_timeout q =
        (q.map Ev.run ++ [Ev.parkTimeout park_timeout], true)
    ∧ RecvOp.blocksAtMost AsyncRunner.staticRecvOp = none
    ∧ AsyncRunner.static_loop_iter park_timeout q = (q.map Ev.run, false) := by
  refine ⟨rfl, rfl, ?_, rfl, ?_⟩
  · simp [BlockingRunner.static_loop_iter, BlockingRunner.staticRecvOp,
      BlockingRunner.THREAD_RECV_TIMEOUT, innerDrain_recvTimeout]
  · simp [AsyncRunner.static_loop_iter, AsyncRunner.staticRecvOp, innerDrain_iterRecv]

/-- Claim C5, counterexample: the blocking pool's dynamic worker does not
drain with nonblocking `try_recv`; its inner receive is
`recv_timeout(100 ms)`, which blocks inside the channel receive for up to
100 ms. -/
theorem blocking_dynamic_recv_blocking_cex :
    BlockingRunner.dynamicRecvOp = RecvOp.recvTimeout 100
    ∧ BlockingRunner.dynamicRecvOp ≠ RecvOp.tryRecv
    ∧ RecvOp.blocksAtMost BlockingRunner.dynamicRecvOp ≠ some 0 := by
  decide

/-- Claim C5 as amended: the async pool's dynamic loop drains with
nonblocking `try_recv` (blocking 0 ms in a receive); the blocking pool's
dynamic loop drains with `recv_timeout(100 ms)`, blocking up to 100 ms in
each receive. In both pools the parker is called only after a receive finds
the channel empty (every run event precedes the parker call). -/
theorem dynamic_worker_recv_amended (q : List LightProc) :
    AsyncRunner.dynamicRecvOp = RecvOp.tryRecv
    ∧ RecvOp.blocksAtMost AsyncRunner.dynamicRecvOp = some 0
    ∧ AsyncRunner.dynamic_loop_iter q = (q.map Ev.run ++ [Ev.callParker], true)
    ∧ BlockingRunner.dynamicRecvOp = RecvOp.recvTimeout 100
    ∧ RecvOp.blocksAtMost BlockingRunner.dynamicRecvOp = some 100
    ∧ BlockingRunner.dynamic_loop_iter q = (q.map Ev.run ++ [Ev.callParker], true) := by
  refine ⟨rfl, rfl, ?_, rfl, rfl, ?_⟩
  · simp [AsyncRunner.dynamic_loop_iter, AsyncRunner.dynamicRecvOp, innerDrain_tryRecv]
  · simp [BlockingRunner.dynamic_loop_iter, BlockingRunner.dynamicRecvOp,
      BlockingRunner.THREAD_RECV_TIMEOUT, innerDrain_recvTimeout]

/-- Claim C6, counterexample: even with a parker that reports idle-deadline
expiry at every call and a channel that stays empty, neither pool's
`run_dynamic` body has returned after 5 outer iterations — the loop cannot
observe the unit-returning parker's expiry at all. -/
theorem run_dynamic_ignores_parker_expiry_cex :
    (AsyncRunner.run_dynamic_loop (fun _ => true) (fun _ => []) 0 5).2 = none
    ∧ (BlockingRunner.run_dynamic_loop (fun _ => true) (fun _ => []) 0 5).2 = none :=
  ⟨rfl, rfl⟩

/-- Claim C6 as amended: in both pools `run_dynamic` never returns (its Rust
return type is `!`): whatever the parker's internal expiry state and
whatever arrives on the channel, after any number of iterations the dynamic
loop is still running, so a dynamic worker's body never exits. -/
theorem run_dynamic_never_returns (parkerExpired : Nat → Bool)
    (arrivals : Nat → List LightProc) (i fuel : Nat) :
    (AsyncRunner.run_dynamic_loop parkerExpired arrivals i fuel).2 = none
    ∧ (BlockingRunner.run_dynamic_loop parkerExpired arrivals i fuel).2 = none := by
  induction fuel generalizing i with
  | zero => exact ⟨rfl, rfl⟩
  | succ n ih => exact ⟨(ih (i + 1)).1, (ih (i + 1)).2⟩

/-- Claim C7: `schedule` — the body shared by `pool.rs`'s `schedule` (async
pool) and `blocking.rs`'s `schedule` (blocking pool), each acting on its own
pool's state — retries a failed nonblocking send as a blocking send of
exactly the payload recovered from the failed send's error (`into_inner`
returns the original task), on the same channel; and whenever the channel is
alive (whether or not the nonblocking attempt failed), the caller sees no
error: `schedule` completes with the task appended once and the frequency
counter bumped. -/
theorem schedule_fallback_same_payload (st : PoolState) (t : LightProc) :
    (∀ err, st.chan.trySend t = Except.error err →
        err = t ∧ st.schedule t = st.blockingSendPath err)
    ∧ (st.chan.connected = true →
        st.schedule t =
          some { chan := { st.chan with queue := st.chan.queue ++ [t] },
                 frequency := st.frequency + 1 }) := by
  obtain ⟨⟨q, conn, tf⟩, fr⟩ := st
  constructor
  · intro err herr
    cases conn <;> cases tf <;>
      simp_all [Chan.trySend, PoolState.schedule, PoolState.blockingSendPath, Chan.send]
  · intro hc
    subst hc
    cases tf <;>
      simp [Chan.trySend, PoolState.schedule, PoolState.blockingSendPath, Chan.send]

/-- Claim C7, witness: with the channel alive but the nonblocking attempt
failing transiently, `schedule` goes through the blocking-send path with the
same payload and completes with the task enqueued. -/
theorem schedule_fallback_same_payload_witness :
    ((⟨0, 1⟩ : LightProc) = ⟨0, 1⟩
        ∧ PoolState.schedule ⟨⟨[], true, true⟩, 5⟩ ⟨0, 1⟩ =
            PoolState.blockingSendPath ⟨⟨[], true, true⟩, 5⟩ ⟨0, 1⟩)
    ∧ PoolState.schedule ⟨⟨[], true, true⟩, 5⟩ ⟨0, 1⟩ =
        some ⟨⟨[⟨0, 1⟩], true, true⟩, 6⟩ :=
  ⟨(schedule_fallback_same_payload ⟨⟨[], true, true⟩, 5⟩ ⟨0, 1⟩).1 ⟨0, 1⟩ rfl,
   (schedule_fallback_same_payload ⟨⟨[], true, true⟩, 5⟩ ⟨0, 1⟩).2 rfl⟩

/-- Claim C9: in both pools' `schedule` (the shared body, acting on each
pool's own state) the blocking fallback send's result is unwrapped, so
`schedule` panics (`none`) exactly when that send fails — i.e. when the
channel is disconnected; and under the invariant that the static `Pool`
value owns both the sender and the receiver for the whole process lifetime
(the channel stays connected), that branch is unreachable: `schedule`
always completes normally. -/
theorem schedule_unwrap_panic_unreachable (st : PoolState) (t : LightProc) :
    (st.chan.connected = false → st.schedule t = none)
    ∧ (st.chan.connected = true →
        st.schedule t =
          some { chan := { st.chan with queue := st.chan.queue ++ [t] },
                 frequency := st.frequency + 1 }) := by
  obtain ⟨⟨q, conn, tf⟩, fr⟩ := st
  cases conn <;> cases tf <;>
    simp [PoolState.schedule, Chan.trySend, Chan.send, PoolState.blockingSendPath]

/-- Claim C9, witness: on a disconnected channel `schedule` panics; on a
connected one it completes with the task enqueued. -/
theorem schedule_unwrap_panic_unreachable_witness :
    PoolState.schedule ⟨⟨[], false, false⟩, 0⟩ ⟨2, 2⟩ = none
    ∧ PoolState.schedule ⟨⟨[], true, false⟩, 0⟩ ⟨2, 2⟩ =
        some ⟨⟨[⟨2, 2⟩], true, false⟩, 1⟩ :=
  ⟨(schedule_unwrap_panic_unreachable ⟨⟨[], false, false⟩, 0⟩ ⟨2, 2⟩).1 rfl,
   (schedule_unwrap_panic_unreachable ⟨⟨[], true, false⟩, 0⟩ ⟨2, 2⟩).2 rfl⟩

/-- Claim C8: `low_watermark` (identical in both pools) evaluates, at first
use of its lazy static, to the integer parsed from
`BASTION_BLOCKING_THREADS` when the variable is set and parses; to the
default 2 when unset; and panics at that first evaluation when the variable
is set but does not parse as an unsigned integer. Once evaluated, the value
is cached and every later call returns it, whatever the environment then
holds. -/
theorem low_watermark_spec (s : String) (n : Nat) (h1 : parseU64 s = some n)
    (s' : String) (h2 : parseU64 s' = none)
    (env0 : Option OsStrVal) (w : Nat)
    (h3 : low_watermark_init env0 = LWOutcome.value w)
    (env1 : Option OsStrVal) :
    low_watermark_init (some (OsStrVal.utf8 s)) = LWOutcome.value n
    ∧ low_watermark_init none = LWOutcome.value DEFAULT_LOW_WATERMARK
    ∧ DEFAULT_LOW_WATERMARK = 2
    ∧ (low_watermark_init (some (OsStrVal.utf8 s'))).isPanic = true
    ∧ low_watermark_call none env0 = (LWOutcome.value w, some w)
    ∧ low_watermark_call (some w) env1 = (LWOutcome.value w, some w) := by
  refine ⟨?_, rfl, rfl, ?_, ?_, rfl⟩
  · simp [low_watermark_init, OsStrVal.to_str, h1]
  · simp [low_watermark_init, OsStrVal.to_str, h2, LWOutcome.isPanic]
  · simp [low_watermark_call, h3]

/-- Claim C8, witness: with the variable set to `"8"` the first evaluation
yields 8 and caches it; a later call with the variable unset still returns
8; with the variable set to `"two"` the first evaluation panics; unset gives
the default 2. -/
theorem low_watermark_spec_witness :
    low_watermark_init (some (OsStrVal.utf8 "8")) = LWOutcome.value 8
    ∧ low_watermark_init none = LWOutcome.value DEFAULT_LOW_WATERMARK
    ∧ DEFAULT_LOW_WATERMARK = 2
    ∧ (low_watermark_init (some (OsStrVal.utf8 "two"))).isPanic = true
    ∧ low_watermark_call none (some (OsStrVal.utf8 "8")) = (LWOutcome.value 8, some 8)
    ∧ low_watermark_call (some 8) none = (LWOutcome.value 8, some 8) :=
  low_watermark_spec "8" 8 (by decide) "two" (by decide)
    (some (OsStrVal.utf8 "8")) 8 (by decide) none

/-- Claim C10: a `BASTION_BLOCKING_THREADS` value that is not valid UTF-8
makes `low_watermark` panic at the `to_str().unwrap()` site, before any
integer parsing is attempted — an outcome distinct from the
integer-parse-failure panic. -/
theorem low_watermark_non_utf8_panics_before_parse :
    low_watermark_init (some OsStrVal.invalid) = LWOutcome.panicNonUtf8
    ∧ LWOutcome.panicNonUtf8 ≠ LWOutcome.panicParse
    ∧ (low_watermark_init (some OsStrVal.invalid)).isPanic = true := by
  decide

end Bastion
